import Mathlib

/-
Verification development for the interview question/answer flow.

The central artifact is `src/components/QuestionFlow.tsx`, a React component
driving a finite flow over modes READING .. REDO_CONFIRM.  We embed it as an
explicit event-step transition system.  The embedding keeps React's operational
details that the component's behaviour depends on:

* `useState` values are committed per render; event handlers and async
  continuations read the committed snapshot and batch their updates;
* `useEffect` bodies re-run after a commit exactly when their dependency
  array changed; re-running effects first run cleanups, then bodies, in
  declaration order; closures (effect cleanups, event-handler callbacks of
  objects created in an effect) capture the values of the render that created
  them; refs (`useRef`) mutate immediately and are read through `.current`;
* asynchronous browser calls (`getUserMedia`, the remote `generateSpeech`
  call, `MediaRecorder.onstop`, `AudioBufferSourceNode.onended`,
  `SpeechSynthesisUtterance.onend`, speech-recognition events, the 1 s timer)
  are modelled as pending obligations resolved by externally scheduled events.

External resources (device streams, audio contexts, recognizer instances,
queued utterances, live buffer sources) are tracked in explicit ledgers so
that claims about "at most one open stream" and "no leak on cleanup" are
statable.  Purely presentational state of the component (playback widget,
content-expansion flag, canvas visualizers) takes part in no claim and is
not modelled; the PCM payload of the narration service is abstracted to the
three outcomes the component distinguishes (data that plays, data whose
decode/playback throws, empty result).

The second part embeds the Add-button guard of
`src/components/CustomQuestionInput.tsx` and of the variant component in
`src/unnamed/part_001`.
-/

namespace QF

/-- Flow modes of the component, `type FlowState` (QuestionFlow.tsx line 14). -/
inductive FlowState
  | READING
  | INPUT_SELECTION
  | RECORDING_VOICE
  | PREVIEW_CAMERA
  | RECORDING_CAMERA
  | TYPING
  | REVIEW
  | REDO_CONFIRM
deriving DecidableEq, Repr

/-- Redo target chosen on the review screen (`initiateRedo`, line 473). -/
inductive RedoMode
  | voice
  | camera
  | typing
deriving DecidableEq, Repr

/-- Kind of a device stream: `getUserMedia({audio:true})` yields `mic`,
`getUserMedia({video:true, audio:true})` yields `cam`. -/
inductive StreamKind
  | mic
  | cam
deriving DecidableEq, Repr

/-- MediaRecorder lifecycle state. -/
inductive RecorderSt
  | recording
  | pausedR
  | inactive
deriving DecidableEq, Repr

/-- The MediaRecorder created in `startRecording` (line 400), together with
the stream it records and the `mode` its `onstop` closure captured. -/
structure Recorder where
  streamId : Nat
  mode : StreamKind
  rstate : RecorderSt
deriving DecidableEq, Repr

/-- The `useState` values of QuestionFlow that the claims depend on
(lines 166-193). -/
structure RState where
  flowState : FlowState
  transcript : String
  cameraStream : Option Nat
  voiceStream : Option Nat
  recordedVideoUrl : Option Nat
  recordedAudioUrl : Option Nat
  isRecordingMedia : Bool
  recordingDuration : Nat
  isPaused : Bool
  nextRedoMode : Option RedoMode
deriving DecidableEq, Repr

/-- One SpeechRecognition instance created by the recognition-initialisation
effect (lines 220-257).  Its `onend` handler closed over the render values of
`isRecordingMedia`, `isPaused` and `flowState`, which we store. -/
structure RecInst where
  id : Nat
  running : Bool
  cIsRecordingMedia : Bool
  cIsPaused : Bool
  cFlowState : FlowState
deriving DecidableEq, Repr

/-- What the completion callback of a narration (the `onended` of a buffer
source, or the `onend` of an utterance) does when it fires: the question
effect's completion advances READING to INPUT_SELECTION under its `isMounted`
guard (lines 303-305, 322-324); the redo completion calls `startNextMode`
with the requested mode, unguarded (lines 512-514, 527-529). -/
inductive EndClosure
  | questionEnd (epoch : Nat)
  | redoEnd (mode : RedoMode)
deriving DecidableEq, Repr

/-- The whole model: the committed React state, the refs, the bookkeeping of
each effect (last dependency snapshot, values captured by live closures), and
the ledgers of external resources and pending asynchronous completions.
`questionEpoch` identifies the live run of the `[question]` effect: an
epoch different from the current one is exactly `isMounted === false` for the
closures of an earlier run.  `onCompleteCalls` counts invocations of the
`onComplete` prop. -/
structure Model where
  question : Nat
  dontAskRedo : Bool
  st : RState
  recognitionCurrent : Option Nat
  mediaRecorder : Option Recorder
  ttsSourceRef : Option Nat
  ttsCtxRef : Option Nat
  chunks : Nat
  eff1Deps : Option (FlowState × Bool)
  intervalActive : Bool
  eff3Deps : Option (Bool × Bool × FlowState)
  eff4Deps : Option Nat
  eff4Captured : Option Nat × Option Nat × Nat
  eff5Deps : Option FlowState
  questionEpoch : Nat
  openStreams : List (Nat × StreamKind)
  audioCtxs : List (Nat × Bool)
  recognitions : List RecInst
  liveSources : List (Nat × EndClosure)
  utterances : List (Nat × EndClosure)
  pendingNarrTimer : Option Nat
  pendingGen : Option Nat
  pendingRedoGen : Option RedoMode
  pendingMic : Nat
  pendingCam : Nat
  pendingOnStop : Option (StreamKind × Nat)
  onCompleteCalls : Nat
  nextId : Nat
deriving DecidableEq, Repr

/-- Draw a fresh identifier (stream ids, blob urls, epochs, instance ids). -/
def fresh (m : Model) : Nat × Model :=
  (m.nextId, { m with nextId := m.nextId + 1 })

/-- Stopping all tracks of a stream removes it from the open-stream ledger
(`stream.getTracks().forEach(t => t.stop())`). -/
def removeStream (sid : Nat) (l : List (Nat × StreamKind)) : List (Nat × StreamKind) :=
  l.filter (fun p => p.1 ≠ sid)

/-- Mark one recognizer instance as running or stopped. -/
def setRunning (i : Nat) (b : Bool) (l : List RecInst) : List RecInst :=
  l.map (fun r => if r.id = i then { r with running := b } else r)

/-- Embedding of `recognitionRef.current.start()` wrapped in try/catch (`startListening`,
line 259; also the restart sites): starting an already-started instance
throws and is swallowed, so the net effect is that the instance referenced by
the ref right now is running afterwards. -/
def recStartCur (m : Model) : Model :=
  { m with recognitions :=
      match m.recognitionCurrent with
      | some i => setRunning i true m.recognitions
      | none => m.recognitions }

/-- Embedding of `recognitionRef.current.stop()` wrapped in try/catch
(`stopListening`, line 267). -/
def recStopCur (m : Model) : Model :=
  { m with recognitions :=
      match m.recognitionCurrent with
      | some i => setRunning i false m.recognitions
      | none => m.recognitions }

/-- Closing an audio context, `ctx.close()`. -/
def closeCtx (c : Nat) (m : Model) : Model :=
  { m with audioCtxs := m.audioCtxs.map (fun p => if p.1 = c then (p.1, true) else p) }

/-- Body of the timer effect (lines 199-207): the interval exists exactly
while a Recording* mode is active and not paused. -/
def eff1body (snap : RState) (m : Model) : Model :=
  { m with
      intervalActive :=
        (snap.flowState = .RECORDING_VOICE ∨ snap.flowState = .RECORDING_CAMERA)
          ∧ ¬ snap.isPaused
      eff1Deps := some (snap.flowState, snap.isPaused) }

/-- Body of the recognition-initialisation effect (lines 220-257): it
unconditionally creates a fresh SpeechRecognition instance, installs handlers
closing over the render's `isRecordingMedia`, `isPaused`, `flowState`, and
overwrites `recognitionRef.current` with it.  The previous instance is not
stopped; if it was running it keeps running. -/
def eff3body (snap : RState) (m : Model) : Model :=
  let (rid, m) := fresh m
  { m with
      recognitions := m.recognitions ++
        [⟨rid, false, snap.isRecordingMedia, snap.isPaused, snap.flowState⟩]
      recognitionCurrent := some rid
      eff3Deps := some (snap.isRecordingMedia, snap.isPaused, snap.flowState) }

/-- Cleanup of the `[question]` effect (lines 333-346).  Its closure was
created by the run of the effect for the previous question, so `voiceStream`
and the `cameraStream` inside its `stopCamera` are the values captured at
that render (`eff4Captured`), not the current ones.  It clears the narration
timer, cancels queued speech synthesis, stops the tts source (whose `onended`
will still fire later), closes the ref'd audio context, stops the camera
stream it captured, stops the ref'd recognizer instance, and stops the
captured voice stream. -/
def eff4cleanup (m : Model) : Model :=
  let cv := m.eff4Captured.1
  let cc := m.eff4Captured.2.1
  let m := { m with pendingNarrTimer := none, utterances := [] }
  let m := match m.ttsCtxRef with
    | some c => closeCtx c m
    | none => m
  let m := match cc with
    | some sid =>
        { m with openStreams := removeStream sid m.openStreams,
                 st := { m.st with cameraStream := none } }
    | none => m
  let m := recStopCur m
  match cv with
  | some sid => { m with openStreams := removeStream sid m.openStreams }
  | none => m

/-- Body of the `[question]` effect (lines 275-331): reset the per-question
state, arm the narration timer for a fresh epoch, and capture the render's
`voiceStream`/`cameraStream` into the cleanup closure. -/
def eff4body (snap : RState) (m : Model) : Model :=
  let (ep, m) := fresh m
  { m with
      questionEpoch := ep
      pendingNarrTimer := some ep
      st := { m.st with
                flowState := .READING
                transcript := ""
                recordedVideoUrl := none
                recordedAudioUrl := none
                voiceStream := none
                cameraStream := none
                recordingDuration := 0
                isPaused := false }
      eff4Captured := (snap.voiceStream, snap.cameraStream, ep)
      eff4Deps := some m.question }

/-- Body of the `[flowState]` effect (lines 368-382): in a camera mode it
calls `startCamera()` (an asynchronous `getUserMedia`, here a pending camera
request), otherwise `stopCamera()` on the render's `cameraStream`; in a
Recording* mode it sets `isRecordingMedia` and starts the ref'd recognizer,
otherwise clears the flag and stops the ref'd recognizer. -/
def eff5body (snap : RState) (m : Model) : Model :=
  let m :=
    if snap.flowState = .PREVIEW_CAMERA ∨ snap.flowState = .RECORDING_CAMERA then
      { m with pendingCam := m.pendingCam + 1 }
    else
      match snap.cameraStream with
      | some sid =>
          { m with openStreams := removeStream sid m.openStreams,
                   st := { m.st with cameraStream := none } }
      | none => m
  let m :=
    if snap.flowState = .RECORDING_VOICE ∨ snap.flowState = .RECORDING_CAMERA then
      recStartCur { m with st := { m.st with isRecordingMedia := true } }
    else
      recStopCur { m with st := { m.st with isRecordingMedia := false } }
  { m with eff5Deps := some snap.flowState }

/-- One React commit round: compare each effect's dependency array against
the committed snapshot, run the cleanups of the effects that re-run, then
their bodies, in declaration order.  Effect bodies read the snapshot;
their state updates land in the next round's snapshot; ref mutations are
visible immediately to later effects in the same round. -/
def commitRound (m0 : Model) : Model :=
  let snap := m0.st
  let r1 := m0.eff1Deps ≠ some (snap.flowState, snap.isPaused)
  let r3 := m0.eff3Deps ≠ some (snap.isRecordingMedia, snap.isPaused, snap.flowState)
  let r4 := m0.eff4Deps ≠ some m0.question
  let r5 := m0.eff5Deps ≠ some snap.flowState
  let ran4before := m0.eff4Deps ≠ none
  let m := if r1 then { m0 with intervalActive := false } else m0
  let m := if r4 ∧ ran4before then eff4cleanup m else m
  let m := if r1 then eff1body snap m else m
  let m := if r3 then eff3body snap m else m
  let m := if r4 then eff4body snap m else m
  let m := if r5 then eff5body snap m else m
  m

/-- A commit settles after finitely many rounds; the cascades of this
component stabilise within three rounds, six is comfortable (a stable round
is the identity, so extra rounds are harmless). -/
def commit (m : Model) : Model :=
  commitRound (commitRound (commitRound (commitRound (commitRound (commitRound m)))))

/-- Embedding of `fallbackSynthesis` of the question effect (lines 318-326):
`speechSynthesis.cancel()` empties the utterance queue (the onend handlers of
the removed utterances never run), then a new utterance for the question text
is queued whose `onend` is the epoch-guarded completion. -/
def fallbackSynth (ep : Nat) (m : Model) : Model :=
  let (uid, m) := fresh m
  { m with utterances := [(uid, .questionEnd ep)] }

/-- Embedding of `fallbackRedoSpeech` (lines 525-531): queue an utterance whose `onend`
calls `startNextMode`; no cancel here (performRedo already cancelled). -/
def fallbackRedoSpeech (mode : RedoMode) (m : Model) : Model :=
  let (uid, m) := fresh m
  { m with utterances := m.utterances ++ [(uid, .redoEnd mode)] }

/-- The audio branch of `startRecording` (lines 384-431) up to its `await
navigator.mediaDevices.getUserMedia({audio:true})`: nothing is mutated before
the await, so calling it merely leaves a microphone acquisition in flight. -/
def startRecordingAudio (m : Model) : Model :=
  { m with pendingMic := m.pendingMic + 1 }

/-- Continuation of `startRecording('audio')` once `getUserMedia` resolved
with a stream (lines 391-426): publish the stream, reset chunks, duration and
pause flag, create and start a MediaRecorder on the stream (its `onstop`
captured `mode==='audio'` and the stream), clear the transcript and enter
RECORDING_VOICE. -/
def micGrantedCont (m : Model) : Model :=
  let (sid, m) := fresh m
  let m := { m with
    openStreams := m.openStreams ++ [(sid, .mic)]
    chunks := 0
    mediaRecorder := some ⟨sid, .mic, .recording⟩
    st := { m.st with
              voiceStream := some sid
              recordingDuration := 0
              isPaused := false
              transcript := ""
              flowState := .RECORDING_VOICE } }
  commit m

/-- The video branch of `startRecording` (lines 384-431): it runs
synchronously, reuses the current `cameraStream` (returning silently when
there is none), creates and starts a MediaRecorder on it, and enters
RECORDING_CAMERA. -/
def startRecordingVideo (m : Model) : Model :=
  match m.st.cameraStream with
  | none => m
  | some sid =>
      commit { m with
        chunks := 0
        mediaRecorder := some ⟨sid, .cam, .recording⟩
        st := { m.st with
                  recordingDuration := 0
                  isPaused := false
                  flowState := .RECORDING_CAMERA } }

/-- Embedding of `startNextMode` inside `performRedo` (lines 533-543), run by the redo
narration's completion. -/
def startNextMode (mode : RedoMode) (m : Model) : Model :=
  match mode with
  | .voice => startRecordingAudio m
  | .camera => commit { m with st := { m.st with flowState := .PREVIEW_CAMERA } }
  | .typing => commit { m with st := { m.st with flowState := .TYPING } }

/-- Embedding of `performRedo` (lines 482-546): discard transcript and recorded urls,
re-enter READING, cancel queued synthesis, and launch `redoAction`, which
starts by awaiting `generateSpeech` (a pending redo narration request). -/
def performRedo (mode : RedoMode) (m : Model) : Model :=
  commit { m with
    utterances := []
    pendingRedoGen := some mode
    st := { m.st with
              transcript := ""
              recordedVideoUrl := none
              recordedAudioUrl := none
              flowState := .READING } }

/-- Embedding of `initiateRedo` (lines 473-480): with the skip flag the redo runs at once,
otherwise the requested mode is remembered and REDO_CONFIRM is entered. -/
def initiateRedo (mode : RedoMode) (m : Model) : Model :=
  if m.dontAskRedo then performRedo mode m
  else
    commit { m with st := { m.st with nextRedoMode := some mode, flowState := .REDO_CONFIRM } }

/-- Embedding of `stopRecordingMedia` (lines 433-438): if a recorder exists and is not
inactive, request its stop (the `onstop` callback will fire later) and enter
REVIEW. -/
def stopRecordingMedia (m : Model) : Model :=
  match m.mediaRecorder with
  | some r =>
      if r.rstate ≠ .inactive then
        commit { m with
          mediaRecorder := some { r with rstate := .inactive }
          pendingOnStop := some (r.mode, r.streamId)
          st := { m.st with flowState := .REVIEW } }
      else m
  | none => m

/-- Embedding of `togglePause` (lines 440-456): resume or pause the recorder, flip the
flag, and start or stop the recognizer instance currently referenced by
`recognitionRef` (which need not be the instance that is actually running). -/
def togglePause (m : Model) : Model :=
  match m.mediaRecorder with
  | none => m
  | some r =>
      if m.st.isPaused then
        commit (recStartCur { m with
          mediaRecorder := some { r with rstate := .recording }
          st := { m.st with isPaused := false } })
      else
        commit (recStopCur { m with
          mediaRecorder := some { r with rstate := .pausedR }
          st := { m.st with isPaused := true } })

/-- Running a narration completion closure.  The question-effect completion
(lines 303-305 and 322-324) is guarded by `isMounted` (here: epoch equals
the live epoch) and advances READING to INPUT_SELECTION through a functional
state update.  The redo completion (lines 512-514 and 527-529) calls
`startNextMode` with no guard. -/
def runEndClosure (c : EndClosure) (m : Model) : Model :=
  match c with
  | .questionEnd ep =>
      if ep = m.questionEpoch then
        commit { m with st := { m.st with
          flowState := if m.st.flowState = .READING then .INPUT_SELECTION else m.st.flowState } }
      else m
  | .redoEnd mode => startNextMode mode m

/-- Outcome of one `generateSpeech` round trip as the component distinguishes
them: a payload that decodes and plays, a payload whose decode or playback
throws (line 309), or an empty result (line 313). -/
inductive Outcome
  | ok
  | playFail
  | noData
deriving DecidableEq, Repr

/-- The external events that drive the component: user interactions on the
rendered controls (guarded by the mode that renders them), resolutions of
asynchronous browser calls, and parent-driven prop changes. -/
inductive Event
  | narrTimerFire
  | genResolved (o : Outcome)
  | redoGenResolved (o : Outcome)
  | ttsEnded (sid : Nat)
  | utterEnded (uid : Nat)
  | pickVoice
  | pickCamera
  | pickTyping
  | micResolved (granted : Bool)
  | camResolved (granted : Bool)
  | cameraStart
  | recorderStop
  | recorderOnStop
  | typeText (s : String)
  | typingDone
  | togglePauseClick
  | timerTick
  | recResult (i : Nat) (txt : String)
  | recEnded (i : Nat)
  | redoRequest (mode : RedoMode)
  | redoYes
  | redoCancel
  | toggleDontAsk
  | questionChange (q : Nat)
deriving DecidableEq, Repr

/-- The transition function.  Each branch is the corresponding handler or
asynchronous continuation of QuestionFlow; an event whose guard fails (a
control not rendered in the current mode, a resolution with nothing pending)
leaves the model unchanged. -/
def step (m : Model) (e : Event) : Model :=
  match e with
  | .narrTimerFire =>
      match m.pendingNarrTimer with
      | some ep => { m with pendingNarrTimer := none, pendingGen := some ep }
      | none => m
  | .genResolved o =>
      match m.pendingGen with
      | none => m
      | some ep =>
          let m := { m with pendingGen := none }
          if ep = m.questionEpoch then
            match o with
            | .noData => fallbackSynth ep m
            | .ok =>
                let (cid, m) := fresh m
                let m := { m with audioCtxs := m.audioCtxs ++ [(cid, false)], ttsCtxRef := some cid }
                let (sid, m) := fresh m
                { m with ttsSourceRef := some sid,
                         liveSources := m.liveSources ++ [(sid, .questionEnd ep)] }
            | .playFail =>
                let (cid, m) := fresh m
                let m := { m with audioCtxs := m.audioCtxs ++ [(cid, false)], ttsCtxRef := some cid }
                fallbackSynth ep m
          else m
  | .redoGenResolved o =>
      match m.pendingRedoGen with
      | none => m
      | some mode =>
          let m := { m with pendingRedoGen := none }
          match o with
          | .noData => fallbackRedoSpeech mode m
          | .ok =>
              let (cid, m) := fresh m
              let m := { m with audioCtxs := m.audioCtxs ++ [(cid, false)], ttsCtxRef := some cid }
              let (sid, m) := fresh m
              { m with ttsSourceRef := some sid,
                       liveSources := m.liveSources ++ [(sid, .redoEnd mode)] }
          | .playFail =>
              let (cid, m) := fresh m
              let m := { m with audioCtxs := m.audioCtxs ++ [(cid, false)], ttsCtxRef := some cid }
              fallbackRedoSpeech mode m
  | .ttsEnded sid =>
      match m.liveSources.find? (fun p => p.1 = sid) with
      | some (_, c) =>
          runEndClosure c { m with liveSources := m.liveSources.filter (fun p => p.1 ≠ sid) }
      | none => m
  | .utterEnded uid =>
      match m.utterances.find? (fun p => p.1 = uid) with
      | some (_, c) =>
          runEndClosure c { m with utterances := m.utterances.filter (fun p => p.1 ≠ uid) }
      | none => m
  | .pickVoice =>
      if m.st.flowState = .INPUT_SELECTION then startRecordingAudio m else m
  | .pickCamera =>
      if m.st.flowState = .INPUT_SELECTION then
        commit { m with st := { m.st with flowState := .PREVIEW_CAMERA } }
      else m
  | .pickTyping =>
      if m.st.flowState = .INPUT_SELECTION then
        commit { m with st := { m.st with flowState := .TYPING } }
      else m
  | .micResolved granted =>
      if m.pendingMic ≠ 0 then
        let m := { m with pendingMic := m.pendingMic - 1 }
        if granted then micGrantedCont m else m
      else m
  | .camResolved granted =>
      if m.pendingCam ≠ 0 then
        let m := { m with pendingCam := m.pendingCam - 1 }
        if granted then
          let (sid, m) := fresh m
          commit { m with
            openStreams := m.openStreams ++ [(sid, .cam)]
            st := { m.st with cameraStream := some sid } }
        else m
      else m
  | .cameraStart =>
      if m.st.flowState = .PREVIEW_CAMERA then startRecordingVideo m else m
  | .recorderStop =>
      if m.st.flowState = .RECORDING_VOICE ∨ m.st.flowState = .RECORDING_CAMERA then
        stopRecordingMedia m
      else m
  | .recorderOnStop =>
      match m.pendingOnStop with
      | none => m
      | some (k, sid) =>
          let (blobId, m) := fresh { m with pendingOnStop := none }
          match k with
          | .cam => commit { m with st := { m.st with recordedVideoUrl := some blobId } }
          | .mic =>
              commit { m with
                openStreams := removeStream sid m.openStreams
                st := { m.st with recordedAudioUrl := some blobId, voiceStream := none } }
  | .typeText s =>
      if m.st.flowState = .TYPING ∨ m.st.flowState = .REVIEW then
        commit { m with st := { m.st with transcript := s } }
      else m
  | .typingDone =>
      if m.st.flowState = .TYPING then
        commit { m with st := { m.st with flowState := .REVIEW } }
      else m
  | .togglePauseClick =>
      if m.st.flowState = .RECORDING_VOICE then togglePause m else m
  | .timerTick =>
      if m.intervalActive then
        commit { m with st := { m.st with recordingDuration := m.st.recordingDuration + 1 } }
      else m
  | .recResult i txt =>
      match m.recognitions.find? (fun r => r.id = i) with
      | some r =>
          if r.running ∧ txt ≠ "" then
            commit { m with st := { m.st with transcript := m.st.transcript ++ txt ++ " " } }
          else m
      | none => m
  | .recEnded i =>
      match m.recognitions.find? (fun r => r.id = i) with
      | some r =>
          if r.running then
            let m := { m with recognitions := setRunning i false m.recognitions }
            if r.cIsRecordingMedia ∧ m.recognitionCurrent ≠ none
                ∧ ¬ r.cIsPaused ∧ r.cFlowState ≠ .REVIEW then
              recStartCur m
            else m
          else m
      | none => m
  | .redoRequest mode =>
      if m.st.flowState = .REVIEW then initiateRedo mode m else m
  | .redoYes =>
      if m.st.flowState = .REDO_CONFIRM then
        match m.st.nextRedoMode with
        | some mode => performRedo mode m
        | none => m
      else m
  | .redoCancel =>
      if m.st.flowState = .REDO_CONFIRM then
        commit { m with st := { m.st with flowState := .REVIEW } }
      else m
  | .toggleDontAsk =>
      if m.st.flowState = .REDO_CONFIRM then
        commit { m with dontAskRedo := ¬ m.dontAskRedo }
      else m
  | .questionChange q =>
      commit { m with question := q }

/-- The model right after the component mounts with question `q` and the
parent-owned `dontAskRedo` flag: the initial `useState` values, with every
effect run once by the mount commit. -/
def initModel (q : Nat) (ask : Bool) : Model :=
  commit
    { question := q
      dontAskRedo := ask
      st := ⟨.READING, "", none, none, none, none, false, 0, false, none⟩
      recognitionCurrent := none
      mediaRecorder := none
      ttsSourceRef := none
      ttsCtxRef := none
      chunks := 0
      eff1Deps := none
      intervalActive := false
      eff3Deps := none
      eff4Deps := none
      eff4Captured := (none, none, 0)
      eff5Deps := none
      questionEpoch := 0
      openStreams := []
      audioCtxs := []
      recognitions := []
      liveSources := []
      utterances := []
      pendingNarrTimer := none
      pendingGen := none
      pendingRedoGen := none
      pendingMic := 0
      pendingCam := 0
      pendingOnStop := none
      onCompleteCalls := 0
      nextId := 0 }

/-- Fold the step function over an event trace. -/
def run (m : Model) (es : List Event) : Model :=
  es.foldl step m

/-- Mount with question 1 and the skip-redo-confirmation flag unset. -/
def initM : Model := initModel 1 false

/-- Narration resolves empty, the fallback utterance finishes: the flow sits
in INPUT_SELECTION (utterance id 2 is the fallback utterance created by
`fallbackSynthesis` on the mount narration). -/
def selTrace : List Event := [.narrTimerFire, .genResolved .noData, .utterEnded 2]

/-- From input selection, pick voice and have the microphone granted. -/
def voiceTrace : List Event := selTrace ++ [.pickVoice, .micResolved true]

/-- Finish the voice answer: the running recognizer instance (id 5) delivers
a final segment, the user presses Done, the recorder's onstop fires. -/
def voiceDoneTrace : List Event :=
  voiceTrace ++ [.recResult 5 "I like dogs", .recorderStop, .recorderOnStop]

/-- From input selection, pick camera, camera granted (stream 5), start
recording. -/
def camTrace : List Event := selTrace ++ [.pickCamera, .camResolved true, .cameraStart]

/-- Finish the camera answer: the running recognizer (id 6) delivers a final
segment, Done, onstop fires. -/
def camDoneTrace : List Event :=
  camTrace ++ [.recResult 6 "We met in Hanoi", .recorderStop, .recorderOnStop]

/-- While recording the camera, the second `getUserMedia` issued by the
re-run of the `[flowState]` effect resolves (stream 8). -/
def camDoubleTrace : List Event := camTrace ++ [.camResolved true]

/-- Complete the flow by typing. -/
def typingTrace : List Event := selTrace ++ [.pickTyping, .typeText "hi", .typingDone]

/-- Record voice for one second, then press pause. -/
def pauseTrace : List Event := voiceTrace ++ [.timerTick, .togglePauseClick]

/-- After pausing, the recognizer instance that was actually started (id 5)
delivers a final segment, and a further timer tick is attempted. -/
def pauseLeakTrace : List Event := pauseTrace ++ [.recResult 5 "hello", .timerTick]

/-- The question prop changes while a voice recording is in progress. -/
def qcTrace : List Event := voiceTrace ++ [.questionChange 2]

/-- Remote narration is playing (buffer source id 3) when the question
changes; afterwards the cancelled source's `onended` fires. -/
def remoteCancelTrace : List Event :=
  [.narrTimerFire, .genResolved .ok, .questionChange 2, .ttsEnded 3]

/-- Fallback narration is queued (utterance id 2) when the question
changes. -/
def fbCancelTrace : List Event :=
  [.narrTimerFire, .genResolved .noData, .questionChange 2]

/-- Microphone permission denied after picking voice. -/
def micDenyTrace : List Event := selTrace ++ [.pickVoice, .micResolved false]

/-- Camera permission denied after picking camera. -/
def camDenyTrace : List Event := selTrace ++ [.pickCamera, .camResolved false]

/-! Preservation of the `onComplete` invocation counter.

No function of the embedding increments `onCompleteCalls`, because no line of
QuestionFlow.tsx calls the `onComplete` prop.  The following lemmas make that
inspectable claim a theorem about every reachable state. -/

theorem recStartCur_onc (m : Model) :
    (recStartCur m).onCompleteCalls = m.onCompleteCalls := rfl

theorem recStopCur_onc (m : Model) :
    (recStopCur m).onCompleteCalls = m.onCompleteCalls := rfl

theorem closeCtx_onc (c : Nat) (m : Model) :
    (closeCtx c m).onCompleteCalls = m.onCompleteCalls := rfl

theorem eff1body_onc (snap : RState) (m : Model) :
    (eff1body snap m).onCompleteCalls = m.onCompleteCalls := rfl

theorem eff3body_onc (snap : RState) (m : Model) :
    (eff3body snap m).onCompleteCalls = m.onCompleteCalls := rfl

theorem eff4cleanup_onc (m : Model) :
    (eff4cleanup m).onCompleteCalls = m.onCompleteCalls := by
  unfold eff4cleanup
  cases h1 : m.eff4Captured.1 <;> cases h2 : m.eff4Captured.2.1 <;>
    cases h3 : m.ttsCtxRef <;>
    simp [h1, h2, h3, closeCtx, recStopCur, setRunning]

theorem eff4body_onc (snap : RState) (m : Model) :
    (eff4body snap m).onCompleteCalls = m.onCompleteCalls := rfl

theorem eff5body_onc (snap : RState) (m : Model) :
    (eff5body snap m).onCompleteCalls = m.onCompleteCalls := by
  unfold eff5body
  split
  case isTrue =>
    split <;> simp [recStartCur_onc, recStopCur_onc]
  case isFalse =>
    cases h : snap.cameraStream <;>
      simp [h] <;> split <;> simp [recStartCur_onc, recStopCur_onc]

theorem commitRound_onc (m : Model) :
    (commitRound m).onCompleteCalls = m.onCompleteCalls := by
  unfold commitRound
  dsimp only
  repeat' split
  all_goals
    simp [eff1body_onc, eff3body_onc, eff4body_onc, eff5body_onc, eff4cleanup_onc]

theorem commit_onc (m : Model) :
    (commit m).onCompleteCalls = m.onCompleteCalls := by
  unfold commit
  simp [commitRound_onc]

theorem fallbackSynth_onc (ep : Nat) (m : Model) :
    (fallbackSynth ep m).onCompleteCalls = m.onCompleteCalls := rfl

theorem fallbackRedoSpeech_onc (mode : RedoMode) (m : Model) :
    (fallbackRedoSpeech mode m).onCompleteCalls = m.onCompleteCalls := rfl

theorem startRecordingAudio_onc (m : Model) :
    (startRecordingAudio m).onCompleteCalls = m.onCompleteCalls := rfl

theorem micGrantedCont_onc (m : Model) :
    (micGrantedCont m).onCompleteCalls = m.onCompleteCalls := by
  simp [micGrantedCont, commit_onc, fresh]

theorem startRecordingVideo_onc (m : Model) :
    (startRecordingVideo m).onCompleteCalls = m.onCompleteCalls := by
  unfold startRecordingVideo
  cases h : m.st.cameraStream
  all_goals simp [h, commit_onc]

theorem startNextMode_onc (mode : RedoMode) (m : Model) :
    (startNextMode mode m).onCompleteCalls = m.onCompleteCalls := by
  cases mode <;> simp [startNextMode, startRecordingAudio_onc, commit_onc]

theorem performRedo_onc (mode : RedoMode) (m : Model) :
    (performRedo mode m).onCompleteCalls = m.onCompleteCalls := by
  simp [performRedo, commit_onc]

theorem initiateRedo_onc (mode : RedoMode) (m : Model) :
    (initiateRedo mode m).onCompleteCalls = m.onCompleteCalls := by
  unfold initiateRedo
  split <;> simp [performRedo_onc, commit_onc]

theorem stopRecordingMedia_onc (m : Model) :
    (stopRecordingMedia m).onCompleteCalls = m.onCompleteCalls := by
  unfold stopRecordingMedia
  cases h : m.mediaRecorder
  all_goals simp only [h]
  all_goals try split
  all_goals simp [commit_onc]

theorem togglePause_onc (m : Model) :
    (togglePause m).onCompleteCalls = m.onCompleteCalls := by
  unfold togglePause
  cases h : m.mediaRecorder
  all_goals simp only [h]
  all_goals try split
  all_goals simp [commit_onc, recStartCur_onc, recStopCur_onc]

theorem runEndClosure_onc (c : EndClosure) (m : Model) :
    (runEndClosure c m).onCompleteCalls = m.onCompleteCalls := by
  cases c with
  | questionEnd ep =>
      simp only [runEndClosure]
      split <;> simp [commit_onc]
  | redoEnd mode => simp [runEndClosure, startNextMode_onc]

theorem step_onc (m : Model) (e : Event) :
    (step m e).onCompleteCalls = m.onCompleteCalls := by
  cases e <;>
    simp only [step] <;>
    (repeat' split) <;>
    (first
      | rfl
      | simp [fallbackSynth_onc, fallbackRedoSpeech_onc, startRecordingAudio_onc,
          micGrantedCont_onc, startRecordingVideo_onc, startNextMode_onc,
          performRedo_onc, initiateRedo_onc, stopRecordingMedia_onc, togglePause_onc,
          runEndClosure_onc, commit_onc, recStartCur_onc, recStopCur_onc, fresh])

theorem run_onc (es : List Event) (m : Model) :
    (run m es).onCompleteCalls = m.onCompleteCalls := by
  induction es generalizing m with
  | nil => rfl
  | cons e es ih => simp [run] at ih ⊢; rw [ih, step_onc]

/-! Fields that a commit leaves alone as long as the `[question]` effect does
not re-run (its dependency still matches the question prop).  This is what
lets us reason about `commit` on an arbitrary state whose question effect is
settled, as it is in every state reached between question changes. -/

/-- The fields of interest that re-running effects 1, 3 and 5 never write. -/
structure Untouched (a b : Model) : Prop where
  flow : a.st.flowState = b.st.flowState
  nextRedo : a.st.nextRedoMode = b.st.nextRedoMode
  audioUrl : a.st.recordedAudioUrl = b.st.recordedAudioUrl
  videoUrl : a.st.recordedVideoUrl = b.st.recordedVideoUrl
  tscript : a.st.transcript = b.st.transcript
  redoGen : a.pendingRedoGen = b.pendingRedoGen
  e4 : a.eff4Deps = b.eff4Deps
  q : a.question = b.question

theorem untouched_refl (m : Model) : Untouched m m :=
  ⟨rfl, rfl, rfl, rfl, rfl, rfl, rfl, rfl⟩

theorem untouched_trans {a b c : Model} (h1 : Untouched a b) (h2 : Untouched b c) :
    Untouched a c :=
  ⟨h1.flow.trans h2.flow, h1.nextRedo.trans h2.nextRedo, h1.audioUrl.trans h2.audioUrl,
   h1.videoUrl.trans h2.videoUrl, h1.tscript.trans h2.tscript, h1.redoGen.trans h2.redoGen,
   h1.e4.trans h2.e4, h1.q.trans h2.q⟩

theorem recStartCur_st (m : Model) : (recStartCur m).st = m.st := rfl

theorem recStopCur_st (m : Model) : (recStopCur m).st = m.st := rfl

theorem eff1body_unt (snap : RState) (m : Model) : Untouched (eff1body snap m) m :=
  ⟨rfl, rfl, rfl, rfl, rfl, rfl, rfl, rfl⟩

theorem eff3body_unt (snap : RState) (m : Model) : Untouched (eff3body snap m) m :=
  ⟨rfl, rfl, rfl, rfl, rfl, rfl, rfl, rfl⟩

theorem eff5body_unt (snap : RState) (m : Model) : Untouched (eff5body snap m) m := by
  unfold eff5body
  dsimp only
  repeat' split
  all_goals exact ⟨rfl, rfl, rfl, rfl, rfl, rfl, rfl, rfl⟩

theorem commitRound_unt (m : Model) (h : m.eff4Deps = some m.question) :
    Untouched (commitRound m) m := by
  unfold commitRound
  dsimp only
  have h4 : ¬ m.eff4Deps ≠ some m.question := by simp [h]
  simp only [h4, false_and, if_false, ite_false]
  repeat' split
  all_goals
    repeat'
      first
        | exact untouched_refl _
        | refine untouched_trans (eff5body_unt _ _) ?_
        | refine untouched_trans (eff3body_unt _ _) ?_
        | refine untouched_trans (eff1body_unt _ _) ?_
        | exact ⟨rfl, rfl, rfl, rfl, rfl, rfl, rfl, rfl⟩

theorem commitRound_sync {m : Model} (h : m.eff4Deps = some m.question) :
    (commitRound m).eff4Deps = some (commitRound m).question := by
  have u := commitRound_unt m h
  rw [u.e4, u.q]
  exact h

theorem commit_unt (m : Model) (h : m.eff4Deps = some m.question) :
    Untouched (commit m) m := by
  have u1 := commitRound_unt m h
  have h1 := commitRound_sync h
  have u2 := commitRound_unt _ h1
  have h2 := commitRound_sync h1
  have u3 := commitRound_unt _ h2
  have h3 := commitRound_sync h2
  have u4 := commitRound_unt _ h3
  have h4 := commitRound_sync h3
  have u5 := commitRound_unt _ h4
  have h5 := commitRound_sync h4
  have u6 := commitRound_unt _ h5
  exact untouched_trans u6 (untouched_trans u5 (untouched_trans u4
    (untouched_trans u3 (untouched_trans u2 u1))))

/-- C1: the claim states that the completion callback is invoked exactly once
with the finished Recording when the respondent finishes reviewing, never
zero times.  In fact no statement of QuestionFlow.tsx ever calls the
`onComplete` prop: on every event trace whatsoever the invocation count stays
zero, in particular on a trace that completes the typing flow and reaches
REVIEW — the callback has then been invoked zero times, not once. -/
theorem c1_completion_callback_never_fires :
    (∀ es : List Event, (run initM es).onCompleteCalls = 0)
    ∧ (run initM typingTrace).st.flowState = FlowState.REVIEW
    ∧ (run initM typingTrace).onCompleteCalls = 0 := by
  refine ⟨fun es => ?_, by decide, by decide⟩
  rw [run_onc]
  decide

/-- C2: completing each input kind's path puts the flow in REVIEW holding an
artifact of the matching shape — an audio url plus the recognised transcript
for voice (no video url), a video url plus transcript for camera (no audio
url), and typed text with no media url for typing. -/
theorem c2_review_artifact_shapes :
    ((run initM voiceDoneTrace).st.flowState = FlowState.REVIEW
      ∧ (run initM voiceDoneTrace).st.recordedAudioUrl = some 9
      ∧ (run initM voiceDoneTrace).st.recordedVideoUrl = none
      ∧ (run initM voiceDoneTrace).st.transcript = "I like dogs ")
    ∧ ((run initM camDoneTrace).st.flowState = FlowState.REVIEW
      ∧ (run initM camDoneTrace).st.recordedVideoUrl = some 10
      ∧ (run initM camDoneTrace).st.recordedAudioUrl = none
      ∧ (run initM camDoneTrace).st.transcript = "We met in Hanoi ")
    ∧ ((run initM typingTrace).st.flowState = FlowState.REVIEW
      ∧ (run initM typingTrace).st.recordedAudioUrl = none
      ∧ (run initM typingTrace).st.recordedVideoUrl = none
      ∧ (run initM typingTrace).st.transcript = "hi") := by
  decide

/-- C3: the claim states at most one capture stream is ever open and a new
one is only opened after release of the previous was requested.  The code
violates it: pressing Start in the camera preview re-runs the `[flowState]`
effect, whose body calls `startCamera()` again; when that second
`getUserMedia` resolves, stream 8 opens while stream 5 — the one the recorder
is recording — is still open and its release was never requested.  Stream 5
is never released afterwards: stopping the recording stops only the newer
stream held in `cameraStream`. -/
theorem c3_second_camera_stream_while_first_open :
    (run initM camDoubleTrace).st.flowState = FlowState.RECORDING_CAMERA
    ∧ (run initM camDoubleTrace).openStreams = [(5, StreamKind.cam), (8, StreamKind.cam)]
    ∧ (run initM camDoubleTrace).mediaRecorder
        = some ⟨5, StreamKind.cam, RecorderSt.recording⟩
    ∧ (run initM camDoubleTrace).st.cameraStream = some 8
    ∧ (run initM (camDoubleTrace ++ [Event.recorderStop, Event.recorderOnStop])).st.flowState
        = FlowState.REVIEW
    ∧ (run initM (camDoubleTrace ++ [Event.recorderStop, Event.recorderOnStop])).openStreams
        = [(5, StreamKind.cam)] := by
  decide

/-- C4: the claim states cleanup on question change releases every active
stream — including a microphone stream of an in-progress voice recording —
and stops every active recognizer.  The code violates it: the `[question]`
effect's cleanup closure captured `voiceStream` (and the `cameraStream`
inside its `stopCamera`) from the render that created the effect, where both
were null, so when the question changes during a voice recording the
microphone stream (stream 4) stays open; the recognizer instance that was
actually started is no longer the one `recognitionRef` points to, so it also
keeps running; even the recorder is still recording. -/
theorem c4_question_change_does_not_release_mic :
    (run initM qcTrace).question = 2
    ∧ (run initM qcTrace).st.flowState = FlowState.READING
    ∧ (run initM qcTrace).st.voiceStream = none
    ∧ (run initM qcTrace).openStreams = [(4, StreamKind.mic)]
    ∧ (run initM qcTrace).recognitions.any (fun r => r.running) = true
    ∧ (run initM qcTrace).mediaRecorder = some ⟨4, StreamKind.mic, RecorderSt.recording⟩ := by
  decide

/-- C5: changing the question mid-narration cancels the narration and its
completion never advances the flow.  Remote path: the question changes while
the decoded buffer source (id 3) is playing; the cleanup stops it, its
`onended` still fires, but the `isMounted` guard of its closure is false, so
the flow stays in READING for the new question.  Fallback path: the cleanup's
`speechSynthesis.cancel()` removes the queued utterance (id 2), so its
`onend` never runs and the flow likewise stays in READING. -/
theorem c5_question_change_cancels_narration :
    ((run initM remoteCancelTrace).st.flowState = FlowState.READING
      ∧ (run initM remoteCancelTrace).liveSources = [])
    ∧ ((run initM fbCancelTrace).utterances = []
      ∧ (run initM fbCancelTrace).st.flowState = FlowState.READING
      ∧ (run initM (fbCancelTrace ++ [Event.utterEnded 2])).st.flowState
          = FlowState.READING) := by
  decide

/-- C6: from any reviewing state of a settled question (the `[question]`
effect's dependency matches the question prop, as in every state between
question changes), a redo request with the skip flag set re-enters READING in
that very step with the redo narration already requested and the recorded
urls discarded; with the flag unset the same request enters REDO_CONFIRM
without touching the answer or starting any redo, and only the subsequent
confirmation performs the redo, while cancel returns to REVIEW. -/
theorem c6_redo_confirmation_gate (m : Model) (mode : RedoMode)
    (hsync : m.eff4Deps = some m.question)
    (hrev : m.st.flowState = FlowState.REVIEW) :
    (m.dontAskRedo = true →
      (step m (.redoRequest mode)).st.flowState = FlowState.READING
      ∧ (step m (.redoRequest mode)).pendingRedoGen = some mode
      ∧ (step m (.redoRequest mode)).st.recordedAudioUrl = none
      ∧ (step m (.redoRequest mode)).st.recordedVideoUrl = none)
    ∧ (m.dontAskRedo = false →
      (step m (.redoRequest mode)).st.flowState = FlowState.REDO_CONFIRM
      ∧ (step m (.redoRequest mode)).st.nextRedoMode = some mode
      ∧ (step m (.redoRequest mode)).pendingRedoGen = m.pendingRedoGen
      ∧ (step m (.redoRequest mode)).st.recordedAudioUrl = m.st.recordedAudioUrl
      ∧ (step m (.redoRequest mode)).st.recordedVideoUrl = m.st.recordedVideoUrl
      ∧ (step m (.redoRequest mode)).st.transcript = m.st.transcript
      ∧ (step (step m (.redoRequest mode)) Event.redoYes).st.flowState = FlowState.READING
      ∧ (step (step m (.redoRequest mode)) Event.redoYes).pendingRedoGen = some mode
      ∧ (step (step m (.redoRequest mode)) Event.redoCancel).st.flowState
          = FlowState.REVIEW) := by
  have e1 : step m (.redoRequest mode) = initiateRedo mode m := by
    simp [step, hrev]
  constructor
  · intro hd
    have e2 : initiateRedo mode m = performRedo mode m := by
      simp [initiateRedo, hd]
    rw [e1, e2]
    unfold performRedo
    have u := commit_unt
      { m with
          utterances := []
          pendingRedoGen := some mode
          st := { m.st with
                    transcript := ""
                    recordedVideoUrl := none
                    recordedAudioUrl := none
                    flowState := .READING } } hsync
    exact ⟨u.flow, u.redoGen, u.audioUrl, u.videoUrl⟩
  · intro hd
    have e2 : initiateRedo mode m
        = commit { m with st := { m.st with
            nextRedoMode := some mode, flowState := .REDO_CONFIRM } } := by
      simp [initiateRedo, hd]
    have u := commit_unt
      { m with st := { m.st with
          nextRedoMode := some mode, flowState := .REDO_CONFIRM } } hsync
    have hflow : (step m (.redoRequest mode)).st.flowState = FlowState.REDO_CONFIRM := by
      rw [e1, e2]; exact u.flow
    have hnext : (step m (.redoRequest mode)).st.nextRedoMode = some mode := by
      rw [e1, e2]; exact u.nextRedo
    have hredoGen : (step m (.redoRequest mode)).pendingRedoGen = m.pendingRedoGen := by
      rw [e1, e2]; exact u.redoGen
    have haud : (step m (.redoRequest mode)).st.recordedAudioUrl = m.st.recordedAudioUrl := by
      rw [e1, e2]; exact u.audioUrl
    have hvid : (step m (.redoRequest mode)).st.recordedVideoUrl = m.st.recordedVideoUrl := by
      rw [e1, e2]; exact u.videoUrl
    have htsc : (step m (.redoRequest mode)).st.transcript = m.st.transcript := by
      rw [e1, e2]; exact u.tscript
    have hsync1 : (step m (.redoRequest mode)).eff4Deps
        = some (step m (.redoRequest mode)).question := by
      rw [e1, e2, u.e4, u.q]
      exact hsync
    obtain ⟨s1, hs1⟩ : ∃ s1, step m (Event.redoRequest mode) = s1 := ⟨_, rfl⟩
    rw [hs1] at hflow hnext hredoGen haud hvid htsc hsync1 ⊢
    have e3 : step s1 Event.redoYes = performRedo mode s1 := by
      simp [step, hflow, hnext]
    have e4 : step s1 Event.redoCancel
        = commit { s1 with st := { s1.st with flowState := .REVIEW } } := by
      simp [step, hflow]
    refine ⟨hflow, hnext, hredoGen, haud, hvid, htsc, ?_, ?_, ?_⟩
    · rw [e3]; unfold performRedo
      exact (commit_unt
        { s1 with
            utterances := []
            pendingRedoGen := some mode
            st := { s1.st with
                      transcript := ""
                      recordedVideoUrl := none
                      recordedAudioUrl := none
                      flowState := .READING } } hsync1).flow
    · rw [e3]; unfold performRedo
      exact (commit_unt
        { s1 with
            utterances := []
            pendingRedoGen := some mode
            st := { s1.st with
                      transcript := ""
                      recordedVideoUrl := none
                      recordedAudioUrl := none
                      flowState := .READING } } hsync1).redoGen
    · rw [e4]
      exact (commit_unt
        { s1 with st := { s1.st with flowState := .REVIEW } } hsync1).flow

/-- Witness for C6 at concrete reachable reviewing states: with the flag
unset the request enters REDO_CONFIRM; with it set the flow re-enters
READING at once. -/
theorem c6_redo_confirmation_gate_witness :
    (step (run initM typingTrace) (.redoRequest RedoMode.voice)).st.flowState
        = FlowState.REDO_CONFIRM
    ∧ (step (run (initModel 1 true) typingTrace) (.redoRequest RedoMode.camera)).st.flowState
        = FlowState.READING := by
  constructor
  · exact ((c6_redo_confirmation_gate (run initM typingTrace) RedoMode.voice
      (by decide) (by decide)).2 (by decide)).1
  · exact ((c6_redo_confirmation_gate (run (initModel 1 true) typingTrace) RedoMode.camera
      (by decide) (by decide)).1 (by decide)).1

/-- C7: a remote synthesis call that returns no data, and one whose decoded
playback fails, both fall back to the platform synthesizer (an utterance is
queued), and when the synthesized speech completes the flow reaches
INPUT_SELECTION, exactly as a successful narration would. -/
theorem c7_narration_fallback_reaches_selection :
    ((run initM [Event.narrTimerFire, Event.genResolved Outcome.noData]).utterances ≠ []
      ∧ (run initM [Event.narrTimerFire, Event.genResolved Outcome.noData,
          Event.utterEnded 2]).st.flowState = FlowState.INPUT_SELECTION)
    ∧ ((run initM [Event.narrTimerFire, Event.genResolved Outcome.playFail]).utterances ≠ []
      ∧ (run initM [Event.narrTimerFire, Event.genResolved Outcome.playFail,
          Event.utterEnded 3]).st.flowState = FlowState.INPUT_SELECTION) := by
  decide

/-- C8: the claim states that pausing stops both the elapsed-time counter and
live transcription.  After pausing, the counter is indeed frozen (the
interval is gone, a further tick leaves the duration at 1) and the recorder
is paused — but the transcript still grows: `togglePause` stops the
recognizer instance currently in `recognitionRef`, which the
recognition-initialisation effect has re-created since the recording began,
while the instance actually started (id 5) keeps running and appends
"hello " to the transcript during the pause. -/
theorem c8_pause_freezes_timer_but_not_transcription :
    ((run initM pauseTrace).st.isPaused = true
      ∧ (run initM pauseTrace).st.recordingDuration = 1
      ∧ (run initM pauseTrace).intervalActive = false
      ∧ (run initM pauseTrace).st.transcript = ""
      ∧ (run initM pauseTrace).mediaRecorder
          = some ⟨4, StreamKind.mic, RecorderSt.pausedR⟩)
    ∧ ((run initM pauseLeakTrace).st.isPaused = true
      ∧ (run initM pauseLeakTrace).st.recordingDuration = 1
      ∧ (run initM pauseLeakTrace).st.transcript = "hello ") := by
  decide

/-- C9: a denied device permission is silent: the resolution of the denied
`getUserMedia` leaves the whole committed state, the open-stream ledger and
the recorder of an arbitrary model state untouched (the catch only logs); in
particular, after a denied microphone request the flow is still in
INPUT_SELECTION and after a denied camera request still in PREVIEW_CAMERA,
with no stream open and no recorder created. -/
theorem c9_permission_denial_is_silent :
    (∀ m : Model,
      ((step m (.micResolved false)).st = m.st
        ∧ (step m (.micResolved false)).openStreams = m.openStreams
        ∧ (step m (.micResolved false)).mediaRecorder = m.mediaRecorder)
      ∧ ((step m (.camResolved false)).st = m.st
        ∧ (step m (.camResolved false)).openStreams = m.openStreams
        ∧ (step m (.camResolved false)).mediaRecorder = m.mediaRecorder))
    ∧ ((run initM micDenyTrace).st.flowState = FlowState.INPUT_SELECTION
      ∧ (run initM micDenyTrace).openStreams = []
      ∧ (run initM micDenyTrace).mediaRecorder = none)
    ∧ ((run initM camDenyTrace).st.flowState = FlowState.PREVIEW_CAMERA
      ∧ (run initM camDenyTrace).openStreams = []
      ∧ (run initM camDenyTrace).mediaRecorder = none) := by
  refine ⟨fun m => ⟨⟨?_, ?_, ?_⟩, ⟨?_, ?_, ?_⟩⟩, by decide, by decide⟩
  all_goals (simp only [step]; split <;> rfl)

end QF

namespace CQI

/-- Whitespace in the sense of ECMAScript `String.prototype.trim`: WhiteSpace
and LineTerminator code points. -/
def isJsWhitespace (c : Char) : Bool :=
  let n := c.toNat
  decide (n = 9 ∨ n = 10 ∨ n = 11 ∨ n = 12 ∨ n = 13 ∨ n = 32 ∨ n = 0xA0 ∨
    n = 0x1680 ∨ (0x2000 ≤ n ∧ n ≤ 0x200A) ∨ n = 0x2028 ∨ n = 0x2029 ∨
    n = 0x202F ∨ n = 0x205F ∨ n = 0x3000 ∨ n = 0xFEFF)

/-- JavaScript `s.trim()`: drop leading and trailing whitespace. -/
def jsTrim (s : String) : String :=
  String.mk (((s.data.dropWhile isJsWhitespace).reverse.dropWhile isJsWhitespace).reverse)

/-- The Add button's `disabled={!questionText.trim()}`
(CustomQuestionInput.tsx line 62 and src/unnamed/part_001 line 82): a string
is falsy exactly when it is empty, so the button is disabled exactly when the
trimmed question text is empty. -/
def addDisabled (questionText : String) : Bool :=
  jsTrim questionText = ""

/-- Clicking Add in `src/components/CustomQuestionInput.tsx` (line 61):
a disabled button cannot deliver the click, an enabled one invokes
`onAdd(questionText)`.  The result is the invocation, if any. -/
def clickAdd (questionText : String) : Option String :=
  if addDisabled questionText then none else some questionText

/-- Clicking Add in the variant component `src/unnamed/part_001` (line 81),
whose callback is `onAdd(questionText, answerText)`. -/
def clickAdd2 (questionText answerText : String) : Option (String × String) :=
  if addDisabled questionText then none else some (questionText, answerText)

theorem jsTrim_eq_empty_iff (s : String) :
    jsTrim s = "" ↔ ∀ c ∈ s.data, isJsWhitespace c := by
  unfold jsTrim
  constructor
  · intro h c hc
    have hlist : ((s.data.dropWhile isJsWhitespace).reverse.dropWhile isJsWhitespace).reverse = [] := by
      have := congrArg String.data h
      simpa using this
    rw [List.reverse_eq_nil_iff, List.dropWhile_eq_nil_iff] at hlist
    have hall : ∀ x ∈ s.data.dropWhile isJsWhitespace, isJsWhitespace x := by
      intro x hx
      exact hlist x (List.mem_reverse.mpr hx)
    have hsplit := List.takeWhile_append_dropWhile (p := isJsWhitespace) (l := s.data)
    rw [← hsplit] at hc
    rcases List.mem_append.mp hc with h1 | h2
    · exact List.mem_takeWhile_imp h1
    · exact hall _ h2
  · intro h
    have h1 : s.data.dropWhile isJsWhitespace = [] :=
      List.dropWhile_eq_nil_iff.mpr (fun x hx => h x hx)
    simp [h1]

/-- C10: in both variants of the custom-question input component the Add
button is enabled exactly when the question text has at least one
non-whitespace character, and consequently the `onAdd` callback only ever
receives a question string that is non-blank after trimming. -/
theorem c10_add_button_guard (q a : String) :
    ((clickAdd q).isSome = q.data.any (fun c => ! isJsWhitespace c))
    ∧ ((clickAdd2 q a).isSome = q.data.any (fun c => ! isJsWhitespace c))
    ∧ (∀ r, clickAdd q = some r → jsTrim r ≠ "")
    ∧ (∀ p, clickAdd2 q a = some p → jsTrim p.1 ≠ "") := by
  by_cases h : jsTrim q = ""
  · have hws : ∀ c ∈ q.data, isJsWhitespace c = true := (jsTrim_eq_empty_iff q).mp h
    have hdis : addDisabled q = true := by simp [addDisabled, h]
    have hany : q.data.any (fun c => ! isJsWhitespace c) = false := by
      rw [List.any_eq_false]
      intro c hc
      simp [hws c hc]
    refine ⟨?_, ?_, ?_, ?_⟩
    · simp [clickAdd, hdis, hany]
    · simp [clickAdd2, hdis, hany]
    · intro r hr
      simp [clickAdd, hdis] at hr
    · intro p hp
      simp [clickAdd2, hdis] at hp
  · have hdis : addDisabled q = false := by simp [addDisabled, h]
    have hany : q.data.any (fun c => ! isJsWhitespace c) = true := by
      rw [List.any_eq_true]
      by_contra hno
      push_neg at hno
      exact h ((jsTrim_eq_empty_iff q).mpr (by
        intro c hc
        have := hno c
        simp [hc] at this
        exact this))
    refine ⟨?_, ?_, ?_, ?_⟩
    · simp [clickAdd, hdis, hany]
    · simp [clickAdd2, hdis, hany]
    · intro r hr
      simp [clickAdd, hdis] at hr
      rw [← hr]
      exact h
    · intro p hp
      simp [clickAdd2, hdis] at hp
      rw [← hp]
      exact h

/-- Witness for C10 at a concrete input: the guard lets " hi " through and
what reaches the callback is non-blank after trimming. -/
theorem c10_add_button_guard_witness :
    jsTrim " hi " ≠ "" ∧ jsTrim " hi " ≠ "" := by
  constructor
  · exact (c10_add_button_guard " hi " "answer").2.2.1 " hi " (by decide)
  · exact (c10_add_button_guard " hi " "answer").2.2.2 (" hi ", "answer") (by decide)

end CQI
